import Mathlib

/-!
Verification of `src/static/js/script.js` (client-side UI glue code).

The script is embedded shallowly:
  * DOM elements looked up by id are modelled as `Option` values
    (`none` = the element is absent from the page).
  * Handlers that can throw a JavaScript `TypeError` (dereferencing a
    `null` returned by `getElementById`) return `Except String _`.
  * The mutable state a handler touches is passed in and returned
    explicitly (the result region, the video container, the chatbot
    state).
  * JavaScript string operations are modelled faithfully:
    `String.prototype.includes` as substring containment on the
    character list (`jsIncludes`), `trim` as whitespace stripping at
    both ends (`jsTrim`), `toLowerCase` as character-wise case folding
    (`jsToLower`), and falsiness of a string value as equality with
    the empty string.
-/

namespace Script

/-- JavaScript `a.isPrefix-like` helper on character lists: `isPrefixList p l`
holds when `p` is an initial segment of `l`. -/
def isPrefixList : List Char → List Char → Bool
  | [], _ => true
  | _ :: _, [] => false
  | a :: as, b :: bs => a == b && isPrefixList as bs

/-- Substring occurrence on character lists: `isSubList pat l` is `true`
when `pat` occurs contiguously inside `l`. -/
def isSubList (pat : List Char) : List Char → Bool
  | [] => isPrefixList pat []
  | c :: rest => isPrefixList pat (c :: rest) || isSubList pat rest

/-- JavaScript `s.includes(pat)`: substring containment. -/
def jsIncludes (s pat : String) : Bool :=
  isSubList pat.toList s.toList

/-- Drop leading whitespace characters from a character list. -/
def dropLeadingWS : List Char → List Char
  | [] => []
  | c :: rest => if c.isWhitespace then dropLeadingWS rest else c :: rest

/-- JavaScript `s.trim()`: strip whitespace from both ends.  (Stated on
the character list so that it reduces by computation; extensionally the
same as `String.trim` on the inputs that occur here.) -/
def jsTrim (s : String) : String :=
  ⟨(dropLeadingWS (dropLeadingWS s.data).reverse).reverse⟩

/-- JavaScript `s.toLowerCase()` (ASCII case folding, as the script only
ever compares against ASCII keywords). -/
def jsToLower (s : String) : String :=
  ⟨s.data.map Char.toLower⟩

/-! ## Resource search (`searchResources`, script.js lines 10-30) -/

/-- State of the `planResult` element: its `innerHTML`, its
`style.display`, and whether `scrollIntoView` has been invoked on it. -/
structure ResultDiv where
  innerHTML : String
  display : String
  scrolledIntoView : Bool
deriving DecidableEq, Repr

/-- The inline error card rendered when a field is missing
(script.js line 17). -/
def errorCardHTML : String :=
  "<div class=\"card\" style=\"text-align: center; color: #c62828; background-color: #ffebee; padding: 20px;\"><strong>Please complete all fields to perform a search.</strong></div>"

/-- The result-header markup rendered on success (script.js line 26). -/
def resultHeaderHTML (headerText : String) : String :=
  "<div class=\"result-header\"><h2>" ++ headerText ++ "</h2></div>"

/-- `searchResources` (script.js lines 10-30).  `domainElem` and
`locationElem` are the `value` properties of the `domain` and `location`
elements when those elements exist (`none` = element absent, in which
case reading `.value` throws a `TypeError`).  `resultDiv` is the
`planResult` element.  Returns the new state of `planResult`, or the
thrown error. -/
def searchResources (domainElem locationElem : Option String)
    (resultDiv : Option ResultDiv) : Except String (Option ResultDiv) :=
  match domainElem with
  | none => .error "TypeError"
  | some domain =>
    match locationElem with
    | none => .error "TypeError"
    | some locRaw =>
      let location := jsTrim locRaw
      if domain = "" ∨ location = "" then
        match resultDiv with
        | some rd => .ok (some { rd with innerHTML := errorCardHTML, display := "block" })
        | none => .ok none
      else
        let headerText := "Displaying mock results for " ++ domain ++ " in " ++ location
        match resultDiv with
        | some _ => .ok (some ⟨resultHeaderHTML headerText, "block", true⟩)
        | none => .ok none

/-! ## Video search (`searchVideos`, script.js lines 34-47) -/

/-- Outcome of a `searchVideos` call: whether `alert` fired, and the
resulting `innerHTML` of the `videoContainer` element (`none` = the
element is absent). -/
structure VideoOutcome where
  alerted : Bool
  videoContainer : Option String
deriving DecidableEq, Repr

/-- The placeholder markup rendered into the video container
(script.js line 45). -/
def videoResultsHTML (searchTerm : String) : String :=
  "<p style=\"text-align:center; padding: 20px;\">Showing mock video results for \"" ++ searchTerm ++ "\"...</p>"

/-- `searchVideos` (script.js lines 34-47).  `query` is the explicit
argument (`none` = called without one, i.e. `undefined`); `searchInput`
is the `value` of the `searchInput` element when present;
`videoContainer` is the current `innerHTML` of the `videoContainer`
element when present.  The effective term is
`query || (searchInput ? searchInput.value.trim() : '')`, where the
empty string is falsy. -/
def searchVideos (query searchInput videoContainer : Option String) :
    VideoOutcome :=
  let fallback := match searchInput with
    | some v => jsTrim v
    | none => ""
  let searchTerm := match query with
    | some q => if q = "" then fallback else q
    | none => fallback
  if searchTerm = "" then
    ⟨true, videoContainer⟩
  else
    match videoContainer with
    | some _ => ⟨false, some (videoResultsHTML searchTerm)⟩
    | none => ⟨false, none⟩

/-! ## Chatbot (script.js lines 52-104) -/

/-- Who sent a chat message. -/
inductive Sender where
  | user
  | bot
deriving DecidableEq, Repr

/-- One transcript entry: the sender class and the message text. -/
structure ChatMessage where
  sender : Sender
  text : String
deriving DecidableEq, Repr

/-- Page-visible chatbot state.
  * `containerDisplay` — `chatbot-container`'s `style.display`;
  * `chatBody` — the transcript held by the `chat-body` element
    (`none` = the element is absent, `addMessageToChat` no-ops);
  * `inputField` — the `value` of `chat-input-field` (`none` = the
    element is absent, reading `.value` throws);
  * `pending` — user messages whose deferred bot reply was scheduled
    with `setTimeout` and has not fired yet, oldest first. -/
structure ChatState where
  containerDisplay : String
  chatBody : Option (List ChatMessage)
  inputField : Option String
  pending : List String
deriving DecidableEq, Repr

/-- `generateBotResponse` (script.js lines 96-103): ordered rule list,
first match wins, substring matching on the lowercased input. -/
def generateBotResponse (userInput : String) : String :=
  let input := jsToLower userInput
  if jsIncludes input "hello" || jsIncludes input "hi" then
    "Hello there! How can I assist you today?"
  else if jsIncludes input "scheme" || jsIncludes input "pension" then
    "You can find detailed information on government schemes in our \"Services Hub\"."
  else if jsIncludes input "help" || jsIncludes input "support" then
    "I am here to help. You can ask me about services, resources, or the community forum."
  else if jsIncludes input "thank" then
    "You\x27re welcome! Is there anything else I can help with?"
  else
    "I\x27m sorry, I\x27m still learning. Try asking about \x27schemes\x27 or \x27help\x27."

/-- `addMessageToChat` (script.js lines 87-94): appends a tagged block
to the end of `chat-body`, or silently returns when that element is
absent. -/
def addMessageToChat (sender : Sender) (message : String)
    (st : ChatState) : ChatState :=
  match st.chatBody with
  | none => st
  | some msgs => { st with chatBody := some (msgs ++ [⟨sender, message⟩]) }

/-- The `chat-form` submit handler (script.js lines 73-84): trims the
input field's value; when non-empty it appends the user entry, clears
the field and schedules the deferred bot reply; when empty it does
nothing.  Reading `.value` of an absent input field throws. -/
def submitChat (st : ChatState) : Except String ChatState :=
  match st.inputField with
  | none => .error "TypeError"
  | some v =>
    let userMessage := jsTrim v
    if userMessage = "" then
      .ok st
    else
      let st1 := addMessageToChat .user userMessage st
      let st2 := { st1 with inputField := some "" }
      .ok { st2 with pending := st2.pending ++ [userMessage] }

/-- The `open-chatbot-btn` click handler (script.js lines 65-67). -/
def openChat (st : ChatState) : ChatState :=
  { st with containerDisplay := "flex" }

/-- The `close-chatbot-btn` click handler (script.js lines 69-71). -/
def closeChat (st : ChatState) : ChatState :=
  { st with containerDisplay := "none" }

/-- The `setTimeout` callback (script.js lines 79-82) firing for the
oldest pending message: generates the bot reply and appends it. -/
def fireTimer (st : ChatState) : ChatState :=
  match st.pending with
  | [] => st
  | m :: rest =>
    { addMessageToChat .bot (generateBotResponse m) st with pending := rest }

/-- An open/close visibility action on the chatbot. -/
inductive ToggleOp where
  | openC
  | closeC
deriving DecidableEq, Repr

/-- Apply one visibility action. -/
def applyToggle (op : ToggleOp) (st : ChatState) : ChatState :=
  match op with
  | .openC => openChat st
  | .closeC => closeChat st

/-- Apply a sequence of visibility actions in order. -/
def applyToggles (ops : List ToggleOp) (st : ChatState) : ChatState :=
  ops.foldl (fun s op => applyToggle op s) st

/-- Any event the chatbot reacts to: open click, close click, form
submit, timer callback.  A submit whose handler throws (absent input
field) leaves the page state unchanged, since the throw happens before
any mutation. -/
inductive ChatOp where
  | openE
  | closeE
  | submitE
  | fireE
deriving DecidableEq, Repr

/-- Apply one chatbot event to the page state. -/
def applyChatOp (op : ChatOp) (st : ChatState) : ChatState :=
  match op with
  | .openE => openChat st
  | .closeE => closeChat st
  | .submitE =>
    match submitChat st with
    | .ok st' => st'
    | .error _ => st
  | .fireE => fireTimer st

/-! ## Claim theorems -/

/-- Both open and close clicks leave the transcript, the input field and
the pending timers untouched. -/
theorem applyToggle_frame (op : ToggleOp) (st : ChatState) :
    (applyToggle op st).chatBody = st.chatBody
    ∧ (applyToggle op st).inputField = st.inputField
    ∧ (applyToggle op st).pending = st.pending := by
  cases op <;> exact ⟨rfl, rfl, rfl⟩

/-- C1 (counterexample): the claim says every handler silently skips all
behavior when a required element is absent, with no exception raised; but
`searchResources` dereferences the `domain` element without a presence
check, so with the `domain` element absent (and the other elements
present) it throws a `TypeError` instead of silently skipping. -/
theorem c1_counterexample :
    searchResources none (some "Austin") (some ⟨"", "none", false⟩) =
      .error "TypeError" := rfl

/-- C1 (amended): absence handling as the code actually implements it:
`searchResources` throws a `TypeError` when the `domain` or `location`
element is absent, and only skips DOM mutation when the result region is
absent; `searchVideos` never mutates an absent video container, but with
no explicit query and an absent search field it falls back to the empty
term and raises the alert; `addMessageToChat` silently no-ops on an
absent transcript region; and the submit handler throws a `TypeError`
when the chat input field is absent. -/
theorem c1_amended_defensiveness :
    (∀ le rd, searchResources none le rd = .error "TypeError")
    ∧ (∀ d rd, searchResources (some d) none rd = .error "TypeError")
    ∧ (∀ d l, searchResources (some d) (some l) none = .ok none)
    ∧ (∀ q si, (searchVideos q si none).videoContainer = none)
    ∧ (∀ vc, searchVideos none none vc = ⟨true, vc⟩)
    ∧ (∀ sender msg disp iv p,
        addMessageToChat sender msg ⟨disp, none, iv, p⟩ = ⟨disp, none, iv, p⟩)
    ∧ (∀ disp cb p, submitChat ⟨disp, cb, none, p⟩ = .error "TypeError") := by
  refine ⟨fun le rd => rfl, fun d rd => rfl, ?_, ?_, fun vc => rfl,
    fun sender msg disp iv p => rfl, fun disp cb p => rfl⟩
  · intro d l
    by_cases h : d = "" ∨ jsTrim l = "" <;> simp [searchResources, h]
  · intro q si
    simp only [searchVideos]
    split <;> rfl

/-- C2: `generateBotResponse "I need help with my pension"` returns the
scheme-information reply of the "scheme"/"pension" rule, not the
"help"/"support" rule's reply: rules are consulted in order and the
first matching rule wins. -/
theorem c2_pension_beats_help :
    generateBotResponse "I need help with my pension" =
      "You can find detailed information on government schemes in our \"Services Hub\"."
    ∧ generateBotResponse "I need help with my pension" ≠
      "I am here to help. You can ask me about services, resources, or the community forum." := by
  decide

/-- C3: every input whose lowercased text contains "hi" as a substring
gets the greeting reply, regardless of later rules' keywords, because
matching is substring-based and the greeting rule comes first. -/
theorem c3_hi_substring_greets (s : String)
    (h : jsIncludes (jsToLower s) "hi" = true) :
    generateBotResponse s = "Hello there! How can I assist you today?" := by
  unfold generateBotResponse
  simp [h]

/-- C3 witness: "hint" contains "hi" and is answered with the greeting. -/
theorem c3_hi_substring_greets_witness :
    jsIncludes (jsToLower "hint") "hi" = true
    ∧ generateBotResponse "hint" = "Hello there! How can I assist you today?" :=
  ⟨by decide, c3_hi_substring_greets "hint" (by decide)⟩

/-- C4: for every location that is empty or whitespace-only (result
region present), `searchResources` renders the inline error card into
the result region, and the error card does not contain the mock-results
header text. -/
theorem c4_blank_location_error (de l : String) (rd : ResultDiv)
    (h : jsTrim l = "") :
    searchResources (some de) (some l) (some rd) =
      .ok (some { rd with innerHTML := errorCardHTML, display := "block" })
    ∧ jsIncludes errorCardHTML "Displaying mock results" = false := by
  refine ⟨?_, by decide⟩
  simp [searchResources, h]

/-- C4 witness: a whitespace-only location with domain "Pension". -/
theorem c4_blank_location_error_witness :
    jsTrim "   " = ""
    ∧ (searchResources (some "Pension") (some "   ") (some ⟨"", "none", false⟩) =
        .ok (some { (⟨"", "none", false⟩ : ResultDiv) with
          innerHTML := errorCardHTML, display := "block" })
      ∧ jsIncludes errorCardHTML "Displaying mock results" = false) :=
  ⟨by decide, c4_blank_location_error "Pension" "   " ⟨"", "none", false⟩ (by decide)⟩

/-- C5: with no explicit query and an empty or whitespace-only field
value, `searchVideos` raises the alert and leaves the video container's
content unchanged. -/
theorem c5_empty_video_term_alerts (v : String) (vc : Option String)
    (h : jsTrim v = "") :
    searchVideos none (some v) vc = ⟨true, vc⟩ := by
  simp [searchVideos, h]

/-- C5 witness: a whitespace-only field value and a non-empty container. -/
theorem c5_empty_video_term_alerts_witness :
    jsTrim "  " = ""
    ∧ searchVideos none (some "  ") (some "<p>old</p>") =
        ⟨true, some "<p>old</p>"⟩ :=
  ⟨by decide, c5_empty_video_term_alerts "  " (some "<p>old</p>") (by decide)⟩

/-- C6: for domain "Pension" and location "Austin", `searchResources`
sets the result region to the header markup embedding both values
verbatim, which contains the literal text
"Displaying mock results for Pension in Austin". -/
theorem c6_pension_austin_header :
    searchResources (some "Pension") (some "Austin") (some ⟨"", "none", false⟩) =
      .ok (some ⟨resultHeaderHTML "Displaying mock results for Pension in Austin",
        "block", true⟩)
    ∧ jsIncludes (resultHeaderHTML "Displaying mock results for Pension in Austin")
        "Displaying mock results for Pension in Austin" = true :=
  ⟨rfl, by decide⟩

/-- C7: a chat form submission whose input value trims to empty appends
no transcript entry, schedules no deferred bot reply, and leaves the
whole chatbot state unchanged. -/
theorem c7_empty_submit_noop (disp : String) (cb : Option (List ChatMessage))
    (p : List String) (v : String) (h : jsTrim v = "") :
    submitChat ⟨disp, cb, some v, p⟩ = .ok ⟨disp, cb, some v, p⟩ := by
  simp [submitChat, h]

/-- C7 witness: submitting a whitespace-only value over a non-empty
transcript changes nothing. -/
theorem c7_empty_submit_noop_witness :
    jsTrim " " = ""
    ∧ submitChat ⟨"flex", some [⟨Sender.user, "hello"⟩], some " ", []⟩ =
        .ok ⟨"flex", some [⟨Sender.user, "hello"⟩], some " ", []⟩ :=
  ⟨by decide, c7_empty_submit_noop "flex" (some [⟨Sender.user, "hello"⟩]) [] " " (by decide)⟩

/-- C8: every sequence of open/close actions leaves the transcript, the
input field and the pending timers unchanged, and any sequence ending in
a close leaves the container in the closed visual state. -/
theorem c8_toggle_frame :
    (∀ ops st, (applyToggles ops st).chatBody = st.chatBody
      ∧ (applyToggles ops st).inputField = st.inputField
      ∧ (applyToggles ops st).pending = st.pending)
    ∧ (∀ ops st,
        (applyToggles (ops ++ [ToggleOp.closeC]) st).containerDisplay = "none") := by
  constructor
  · intro ops
    induction ops with
    | nil => exact fun st => ⟨rfl, rfl, rfl⟩
    | cons op rest ih =>
      intro st
      have h1 := applyToggle_frame op st
      have h2 := ih (applyToggle op st)
      exact ⟨h2.1.trans h1.1, h2.2.1.trans h1.2.1, h2.2.2.trans h1.2.2⟩
  · intro ops st
    show (List.foldl (fun s op => applyToggle op s) st
      (ops ++ [ToggleOp.closeC])).containerDisplay = "none"
    rw [List.foldl_append]
    rfl

/-- C9: the transcript is append-only: every chatbot event either
appends entries at the end of the transcript or leaves it unchanged;
none removes, reorders or edits existing entries. -/
theorem c9_transcript_append_only (op : ChatOp) (st : ChatState) :
    ∃ suffix, (applyChatOp op st).chatBody =
      st.chatBody.map (fun tr => tr ++ suffix) := by
  cases op with
  | openE =>
    obtain ⟨disp, cb, iv, p⟩ := st
    exact ⟨[], by cases cb <;> simp [applyChatOp, openChat]⟩
  | closeE =>
    obtain ⟨disp, cb, iv, p⟩ := st
    exact ⟨[], by cases cb <;> simp [applyChatOp, closeChat]⟩
  | submitE =>
    obtain ⟨disp, cb, iv, p⟩ := st
    cases iv with
    | none => exact ⟨[], by cases cb <;> simp [applyChatOp, submitChat]⟩
    | some v =>
      by_cases hv : jsTrim v = ""
      · exact ⟨[], by cases cb <;> simp [applyChatOp, submitChat, hv, addMessageToChat]⟩
      · exact ⟨[⟨Sender.user, jsTrim v⟩],
          by cases cb <;> simp [applyChatOp, submitChat, hv, addMessageToChat]⟩
  | fireE =>
    obtain ⟨disp, cb, iv, p⟩ := st
    cases p with
    | nil => exact ⟨[], by cases cb <;> simp [applyChatOp, fireTimer]⟩
    | cons m rest =>
      exact ⟨[⟨Sender.bot, generateBotResponse m⟩],
        by cases cb <;> simp [applyChatOp, fireTimer, addMessageToChat]⟩

/-- C10: only the location is trimmed before the presence check: a
whitespace-only domain passes validation and is embedded verbatim in the
rendered header, while a whitespace-only location fails validation and
renders the error card. -/
theorem c10_domain_not_trimmed (d : String) (rd : ResultDiv)
    (hne : d ≠ "") (hws : jsTrim d = "") :
    searchResources (some d) (some "Austin") (some rd) =
      .ok (some ⟨resultHeaderHTML
        ("Displaying mock results for " ++ d ++ " in " ++ "Austin"), "block", true⟩)
    ∧ searchResources (some "Pension") (some d) (some rd) =
      .ok (some { rd with innerHTML := errorCardHTML, display := "block" }) := by
  constructor
  · have ht : jsTrim "Austin" = "Austin" := by decide
    simp [searchResources, ht, hne]
  · simp [searchResources, hws]

/-- C10 witness: the single-space domain " " passes validation while the
single-space location fails it. -/
theorem c10_domain_not_trimmed_witness :
    ((" " : String) ≠ "" ∧ jsTrim " " = "")
    ∧ (searchResources (some " ") (some "Austin") (some ⟨"", "none", false⟩) =
        .ok (some ⟨resultHeaderHTML
          ("Displaying mock results for " ++ " " ++ " in " ++ "Austin"), "block", true⟩)
      ∧ searchResources (some "Pension") (some " ") (some ⟨"", "none", false⟩) =
        .ok (some { (⟨"", "none", false⟩ : ResultDiv) with
          innerHTML := errorCardHTML, display := "block" })) :=
  ⟨⟨by decide, by decide⟩,
    c10_domain_not_trimmed " " ⟨"", "none", false⟩ (by decide) (by decide)⟩

end Script
